import Mathlib

/-!
Verification of the BMTS event-registration server (`server/index.js`,
second and most feature-complete variant, which the specification treats
as canonical).

The embedding is shallow: each JavaScript function relevant to the claims
is translated into an executable Lean definition.  HTTP, SQLite and SMTP
mechanics are replaced by explicit data: the registration table is a
`List Registration`, SQL queries become list operations with the same
semantics, and the nodemailer transporter is an abstract `Option Mailer`
whose delivery result is a `Bool` (`false` models a thrown send error,
which `sendEmail` catches and swallows).

JavaScript string primitives used by the source (`toLowerCase`,
`endsWith`, `trim`, truthiness of strings, `x || y` defaulting) are
given executable char-list based models so that concrete witnesses can
be checked by `decide`.
-/

/-- Model of `String.prototype.toLowerCase` (ASCII range, which covers
every input the server compares: mime types and file extensions). -/
def jsToLower (s : String) : String := String.mk (s.data.map Char.toLower)

/-- Boolean test that `p` is a prefix of `l` (char lists). -/
def hasPre : List Char → List Char → Bool
  | [], _ => true
  | _ :: _, [] => false
  | p :: ps, c :: cs => p == c && hasPre ps cs

/-- Model of `String.prototype.endsWith`. -/
def jsEndsWith (s suffixStr : String) : Bool :=
  hasPre suffixStr.data.reverse s.data.reverse

/-- Model of `String.prototype.trim`: strip whitespace from both ends. -/
def jsTrim (s : String) : String :=
  String.mk (((s.data.dropWhile Char.isWhitespace).reverse.dropWhile
    Char.isWhitespace).reverse)

/-- Boolean substring test: does `needle` occur inside `hay`? -/
def occursIn (needle : List Char) : List Char → Bool
  | [] => hasPre needle []
  | c :: t => hasPre needle (c :: t) || occursIn needle t

/-- `containsStr s sub` holds when `sub` occurs in `s` as a contiguous
substring. -/
def containsStr (s sub : String) : Bool := occursIn sub.data s.data

/-- JavaScript truthy-or-empty coercion applied to an optional request
field: a missing field or the (falsy) empty string both give the empty
string. -/
def jsTruthyString (v : Option String) : String :=
  match v with
  | some s => if s == "" then "" else s
  | none => ""

/-- JavaScript `v || d` defaulting for an optional string: missing or
empty (falsy) values fall back to the default `d`. -/
def jsOr (v : Option String) (d : String) : String :=
  match v with
  | some s => if s == "" then d else s
  | none => d

/-- `isValidFile(mimetype, filename)` from `server/index.js`: the declared
content-type must be one of the three accepted mime types, and the
lowercased filename must end with one of the four accepted extensions.
The two checks are independent; no correspondence between content-type
and extension is enforced. -/
def isValidFile (mimetype filename : String) : Bool :=
  let allowed := ["application/pdf", "image/jpeg", "image/png"]
  let ext := jsToLower filename
  if !(allowed.contains mimetype) then false
  else if !(jsEndsWith ext ".pdf" || jsEndsWith ext ".jpg" ||
      jsEndsWith ext ".jpeg" || jsEndsWith ext ".png") then false
  else true

/-- The multer upload size limit: `limits: { fileSize: 10 * 1024 * 1024 }`. -/
def maxFileSize : Nat := 10 * 1024 * 1024

/-- The uploaded file as the server sees it after multer parsing:
`mimetype` and `originalname` come from the client, `size` is the number
of content bytes, `filename`/`path` are the stored name and location
computed by the multer `diskStorage` callbacks. -/
structure FileDesc where
  mimetype : String
  originalname : String
  size : Nat
  filename : String
  path : String
deriving DecidableEq, Repr

/-- One row of the `registrations` table (schema from the `CREATE TABLE`
statement in `server/index.js`). -/
structure Registration where
  id : String
  created_at : String
  status : String
  middle_temple_member : String
  bmts_member_interest : String
  title : String
  first_name : String
  last_name : String
  company : String
  po_box : String
  city : String
  telephone : String
  email : String
  practice_track : String
  payment_method : String
  payment_file_name : String
  payment_file_path : String
  admin_notes : String
deriving DecidableEq, Repr

/-- `SELECT * FROM registrations WHERE id = ?` (`id` is the primary key;
the first matching row is returned). -/
def getById (store : List Registration) (id : String) : Option Registration :=
  store.find? (fun r => r.id == id)

/-- `UPDATE registrations SET status = ?, admin_notes = ? WHERE id = ?`. -/
def updateStatusAndNotes (store : List Registration) (id status notes : String) :
    List Registration :=
  store.map (fun r =>
    if r.id == id then { r with status := status, admin_notes := notes } else r)

/-- The `allowed` status list of the admin status-update route. -/
def allowedStatuses : List String :=
  ["Pending Verification", "Payment Verified", "Payment Rejected",
   "Awaiting Resubmission", "Cancelled", "Waitlisted", "Confirmed"]

/-- Abstract SMTP transport: `deliver to subject text` returns `true`
when `sendMail` resolves and `false` when it throws. -/
structure Mailer where
  deliver : String → String → String → Bool

/-- What became of one `sendEmail` call.  The source function has no
other exit: an unconfigured transporter logs a warning and returns, and
a delivery error is caught, logged and swallowed, so `sendEmail` never
throws into its caller. -/
inductive SendOutcome where
  | notConfigured
  | sent
  | failed
deriving DecidableEq, Repr

/-- `sendEmail(to, subject, text)` from `server/index.js`. -/
def sendEmail (transporter : Option Mailer) (toAddr subject text : String) :
    SendOutcome :=
  match transporter with
  | none => SendOutcome.notConfigured
  | some m =>
    if m.deliver toAddr subject text then SendOutcome.sent else SendOutcome.failed

/-- An outgoing message as handed to `sendEmail`. -/
structure Email where
  toAddr : String
  subject : String
  text : String
deriving DecidableEq, Repr

/-- One attempted dispatch: the message plus what `sendEmail` did with it. -/
structure SendRecord where
  email : Email
  outcome : SendOutcome
deriving DecidableEq, Repr

/-- `{ subject, text }` object returned by every email template generator. -/
structure EmailContent where
  subject : String
  text : String
deriving DecidableEq, Repr

/-- The filter dropping empty lines that every template applies to its
line array before joining. -/
def emailBodyLines (lines : List String) : List String :=
  lines.filter (fun l => !(l == ""))

/-- The newline join of the filtered line array. -/
def renderBody (lines : List String) : String :=
  String.intercalate "\n" (emailBodyLines lines)

/-- The heavy-rule separator line used by every template. -/
def sep : String :=
  "━━━━━━━━━━━━━━━━━━━━━━━━━━━━━━━━━━━━━━━━━━━━━━━━━━━━━━━━━━━━━━━━━━━━"

/-- Line array of `generateRegistrationConfirmationEmail(registration)`.
`registrationDate` is the `new Date().toLocaleDateString(...)` value,
treated as an injected clock input. -/
def registrationConfirmationLines (r : Registration) (registrationDate : String) :
    List String :=
  ["Dear " ++ r.title ++ " " ++ r.last_name ++ ",",
   "",
   "Thank you for registering for The Bahamas Middle Temple Week 2026 – Advocacy Training Programme.",
   "",
   "We have successfully received your registration and payment proof. Your submission is currently under review by our administrative team.",
   "",
   "REGISTRATION CONFIRMATION",
   sep,
   "",
   "Registration ID: " ++ r.id,
   "Registration Date: " ++ registrationDate,
   "Name: " ++ r.title ++ " " ++ r.first_name ++ " " ++ r.last_name,
   "Practice Track: " ++ r.practice_track ++ " Advocacy",
   "Payment Method: " ++ r.payment_method,
   if r.company == "" then "" else "Firm/Company: " ++ r.company,
   "Email: " ++ r.email,
   "Telephone: " ++ r.telephone,
   "",
   "EVENT DETAILS",
   sep,
   "",
   "Event: The Bahamas Middle Temple Week 2026",
   "Date: 19–23 January 2026",
   "Venue: British Colonial Hilton",
   "Location: Nassau, New Providence, The Bahamas",
   "",
   "NEXT STEPS",
   sep,
   "",
   "1. Payment Verification: Our team will review your payment proof within 2-3 business days.",
   "2. Confirmation Email: Once your payment is verified, you will receive a confirmation email with further instructions.",
   "3. Programme Materials: Additional programme details and materials will be sent closer to the event date.",
   "",
   "Please retain this email and your Registration ID (" ++ r.id ++ ") for your records.",
   "",
   "If you have any questions or need to update your registration, please contact us at bahamasmts@bmts-events.com.",
   "",
   "We look forward to welcoming you to Nassau in January 2026.",
   "",
   "Best regards,",
   "",
   "The Bahamas Middle Temple Society",
   "Organising Committee",
   "Bahamas Middle Temple Week 2026",
   "",
   sep,
   "This is an automated confirmation email. Please do not reply directly to this message.",
   "For enquiries, contact: bahamasmts@bmts-events.com"]

/-- `generateRegistrationConfirmationEmail(registration)`. -/
def generateRegistrationConfirmationEmail (r : Registration)
    (registrationDate : String) : EmailContent :=
  { subject := "Registration Received – Bahamas Middle Temple Week 2026",
    text := renderBody (registrationConfirmationLines r registrationDate) }

/-- Line array of `generatePaymentVerifiedEmail(registration)`. -/
def paymentVerifiedLines (r : Registration) : List String :=
  ["Dear " ++ r.title ++ " " ++ r.last_name ++ ",",
   "",
   "Congratulations! We are pleased to confirm that your registration for The Bahamas Middle Temple Week 2026 – Advocacy Training Programme has been successfully verified and approved.",
   "",
   "REGISTRATION CONFIRMED",
   sep,
   "",
   "Registration ID: " ++ r.id,
   "Name: " ++ r.title ++ " " ++ r.first_name ++ " " ++ r.last_name,
   "Practice Track: " ++ r.practice_track ++ " Advocacy",
   "Payment Status: VERIFIED AND CONFIRMED",
   if r.company == "" then "" else "Firm/Company: " ++ r.company,
   "",
   "EVENT INFORMATION",
   sep,
   "",
   "Event: The Bahamas Middle Temple Week 2026",
   "Date: 19–23 January 2026 (Sunday to Thursday)",
   "Venue: British Colonial Hilton",
   "Address: 1 Bay Street, Nassau, New Providence, The Bahamas",
   "",
   "PROGRAMME HIGHLIGHTS",
   sep,
   "",
   "• Intensive advocacy training sessions",
   "• Expert-led workshops and seminars",
   "• Networking opportunities with legal professionals",
   "• Practical advocacy exercises and mock trials",
   "• Certificate of completion",
   "",
   "WHAT\u0027S NEXT",
   sep,
   "",
   "Your place has been secured for this intensive advocacy training programme. Over the coming weeks, you will receive:",
   "",
   "1. Detailed programme schedule and agenda",
   "2. Pre-event materials and reading list",
   "3. Venue information and local recommendations",
   "4. Travel and accommodation guidance",
   "5. Final event instructions",
   "",
   "IMPORTANT REMINDERS",
   sep,
   "",
   "• Please ensure you have made arrangements for travel and accommodation",
   "• Bring valid identification and any required travel documents",
   "• Business attire is required for all sessions",
   "• Networking events will include both formal and casual opportunities",
   "",
   "We are excited to welcome you to Nassau for what promises to be an exceptional learning and networking experience.",
   "",
   "Best regards,",
   "",
   "The Bahamas Middle Temple Society",
   "Organising Committee",
   "Bahamas Middle Temple Week 2026",
   "",
   sep,
   "For enquiries, contact: bahamasmts@bmts-events.com"]

/-- `generatePaymentVerifiedEmail(registration)`. -/
def generatePaymentVerifiedEmail (r : Registration) : EmailContent :=
  { subject := "Registration Confirmed – Bahamas Middle Temple Week 2026",
    text := renderBody (paymentVerifiedLines r) }

/-- Line array of `generatePaymentRejectedEmail(registration, adminNotes)`. -/
def paymentRejectedLines (r : Registration) (adminNotes : String) : List String :=
  ["Dear " ++ r.title ++ " " ++ r.last_name ++ ",",
   "",
   "Thank you for your interest in The Bahamas Middle Temple Week 2026 – Advocacy Training Programme.",
   "",
   "ACTION REQUIRED: PAYMENT VERIFICATION",
   sep,
   "",
   "We were unable to verify the payment proof document submitted with your registration. This may be due to:",
   "",
   "• The document being unclear or incomplete",
   "• Missing payment details or reference numbers",
   "• The document format not being readable",
   "• Payment details not matching our records",
   "• Incorrect payment amount or method",
   "",
   if adminNotes == "" then "" else "ADDITIONAL NOTES FROM OUR TEAM:",
   if adminNotes == "" then "" else adminNotes,
   if adminNotes == "" then "" else "",
   "REGISTRATION DETAILS",
   sep,
   "",
   "Registration ID: " ++ r.id,
   "Name: " ++ r.title ++ " " ++ r.first_name ++ " " ++ r.last_name,
   "Practice Track: " ++ r.practice_track ++ " Advocacy",
   "Payment Method: " ++ r.payment_method,
   "Current Status: Payment Verification Required",
   "",
   "WHAT TO DO NEXT",
   sep,
   "",
   "Please contact us at bahamasmts@bmts-events.com with the following information:",
   "",
   "1. Your Registration ID: " ++ r.id,
   "2. A clear copy of your payment proof (bank transfer receipt or cheque copy)",
   "3. Any additional payment details or reference numbers",
   "4. Transaction date and amount",
   "",
   "PAYMENT REQUIREMENTS",
   sep,
   "",
   "For bank transfers, please ensure your receipt includes:",
   "• Transaction reference number",
   "• Date and time of transfer",
   "• Amount transferred",
   "• Recipient account details",
   "",
   "For cheque payments, please provide:",
   "• Clear copy of the cheque (front and back if applicable)",
   "• Cheque number and date",
   "• Bank details",
   "",
   "Our team will review your updated payment proof and respond within 1-2 business days.",
   "",
   "We appreciate your patience and look forward to resolving this matter promptly so we can confirm your place at this prestigious event.",
   "",
   "Best regards,",
   "",
   "The Bahamas Middle Temple Society",
   "Organising Committee",
   "Bahamas Middle Temple Week 2026",
   "",
   sep,
   "For immediate assistance, contact: bahamasmts@bmts-events.com"]

/-- `generatePaymentRejectedEmail(registration, adminNotes)`. -/
def generatePaymentRejectedEmail (r : Registration) (adminNotes : String) :
    EmailContent :=
  { subject := "Action Required – Registration Payment Verification",
    text := renderBody (paymentRejectedLines r adminNotes) }

/-- Line array of `generateAwaitingResubmissionEmail(registration, adminNotes)`. -/
def awaitingResubmissionLines (r : Registration) (adminNotes : String) :
    List String :=
  ["Dear " ++ r.title ++ " " ++ r.last_name ++ ",",
   "",
   "We are writing regarding your registration for The Bahamas Middle Temple Week 2026 – Advocacy Training Programme.",
   "",
   "RESUBMISSION REQUIRED",
   sep,
   "",
   "After reviewing your payment documentation, we require additional information or a new payment proof document to complete your registration verification.",
   "",
   if adminNotes == "" then "" else "SPECIFIC REQUIREMENTS:",
   if adminNotes == "" then "" else adminNotes,
   if adminNotes == "" then "" else "",
   "REGISTRATION DETAILS",
   sep,
   "",
   "Registration ID: " ++ r.id,
   "Name: " ++ r.title ++ " " ++ r.first_name ++ " " ++ r.last_name,
   "Practice Track: " ++ r.practice_track ++ " Advocacy",
   "Payment Method: " ++ r.payment_method,
   "Current Status: Awaiting Payment Resubmission",
   "",
   "REQUIRED ACTIONS",
   sep,
   "",
   "Please email us at bahamasmts@bmts-events.com with:",
   "",
   "1. Your Registration ID: " ++ r.id,
   "2. Updated or corrected payment proof document",
   "3. Any additional documentation requested above",
   "4. Your contact information for follow-up",
   "",
   "DOCUMENT REQUIREMENTS",
   sep,
   "",
   "• Documents must be clear and legible (PDF, JPG, or PNG format)",
   "• Include all relevant transaction details",
   "• Ensure payment amount matches registration fees",
   "• Provide transaction reference numbers where applicable",
   "",
   "TIME SENSITIVITY",
   sep,
   "",
   "Please respond within 7 days to secure your place at the event. Late submissions may result in your registration being placed on a waiting list.",
   "",
   "Our team is standing by to assist you with this process. Once we receive the required documentation, we will process your registration promptly.",
   "",
   "Best regards,",
   "",
   "The Bahamas Middle Temple Society",
   "Organising Committee",
   "Bahamas Middle Temple Week 2026",
   "",
   sep,
   "For immediate assistance, contact: bahamasmts@bmts-events.com"]

/-- `generateAwaitingResubmissionEmail(registration, adminNotes)`. -/
def generateAwaitingResubmissionEmail (r : Registration) (adminNotes : String) :
    EmailContent :=
  { subject := "Payment Resubmission Required – Bahamas Middle Temple Week 2026",
    text := renderBody (awaitingResubmissionLines r adminNotes) }

/-- Line array of `generateAdminNotificationEmail(registration)`.
`now` is the `new Date().toLocaleString()` value and `adminUrl` the
`process.env.ADMIN_URL` value with its default applied. -/
def adminNotificationLines (r : Registration) (now adminUrl : String) :
    List String :=
  ["New Registration Received",
   "",
   "A new registration has been submitted for Bahamas Middle Temple Week 2026.",
   "",
   "REGISTRATION DETAILS",
   sep,
   "",
   "Registration ID: " ++ r.id,
   "Registration Date: " ++ now,
   "",
   "PARTICIPANT INFORMATION",
   "Name: " ++ r.title ++ " " ++ r.first_name ++ " " ++ r.last_name,
   "Email: " ++ r.email,
   "Telephone: " ++ r.telephone,
   if r.company == "" then "" else "Company: " ++ r.company,
   if r.city == "" then "" else "City: " ++ r.city,
   if r.po_box == "" then "" else "PO Box: " ++ r.po_box,
   "",
   "PROGRAMME DETAILS",
   "Practice Track: " ++ r.practice_track ++ " Advocacy",
   "Payment Method: " ++ r.payment_method,
   "Middle Temple Member: " ++ r.middle_temple_member,
   "BMTS Member Interest: " ++ r.bmts_member_interest,
   "",
   "STATUS INFORMATION",
   "Current Status: " ++ r.status,
   "Payment File: " ++ r.payment_file_name,
   "",
   "ADMIN ACTIONS REQUIRED",
   sep,
   "",
   "1. Review payment proof document",
   "2. Verify payment details and amount",
   "3. Update registration status accordingly",
   "4. Send appropriate confirmation email to participant",
   "",
   "Please review this registration in the admin panel and update the status as appropriate.",
   "",
   "Admin Panel: " ++ adminUrl]

/-- `generateAdminNotificationEmail(registration)`. -/
def generateAdminNotificationEmail (r : Registration) (now adminUrl : String) :
    EmailContent :=
  { subject := "New Registration: " ++ r.first_name ++ " " ++ r.last_name ++
      " – Bahamas Middle Temple Week 2026",
    text := renderBody (adminNotificationLines r now adminUrl) }

/-- Line array of
`generateStatusChangeNotificationEmail(registration, newStatus, oldStatus, adminNotes)`. -/
def statusChangeLines (r : Registration) (newStatus oldStatus adminNotes : String) :
    List String :=
  ["Dear " ++ r.title ++ " " ++ r.last_name ++ ",",
   "",
   "We are writing to update you on the status of your registration for The Bahamas Middle Temple Week 2026 – Advocacy Training Programme.",
   "",
   "STATUS UPDATE",
   sep,
   "",
   "Registration ID: " ++ r.id,
   "Name: " ++ r.title ++ " " ++ r.first_name ++ " " ++ r.last_name,
   "Previous Status: " ++ oldStatus,
   "Current Status: " ++ newStatus,
   "",
   if adminNotes == "" then "" else "ADDITIONAL INFORMATION:",
   if adminNotes == "" then "" else adminNotes,
   if adminNotes == "" then "" else "",
   "REGISTRATION DETAILS",
   sep,
   "",
   "Practice Track: " ++ r.practice_track ++ " Advocacy",
   "Payment Method: " ++ r.payment_method,
   if r.company == "" then "" else "Firm/Company: " ++ r.company,
   "",
   "EVENT INFORMATION",
   sep,
   "",
   "Event: The Bahamas Middle Temple Week 2026",
   "Date: 19–23 January 2026",
   "Venue: British Colonial Hilton",
   "Location: Nassau, New Providence, The Bahamas",
   "",
   "If you have any questions about this status change or need further assistance, please contact us at bahamasmts@bmts-events.com.",
   "",
   "Best regards,",
   "",
   "The Bahamas Middle Temple Society",
   "Organising Committee",
   "Bahamas Middle Temple Week 2026",
   "",
   sep,
   "For enquiries, contact: bahamasmts@bmts-events.com"]

/-- `generateStatusChangeNotificationEmail(registration, newStatus, oldStatus, adminNotes)`. -/
def generateStatusChangeNotificationEmail (r : Registration)
    (newStatus oldStatus adminNotes : String) : EmailContent :=
  { subject := "Registration Status Update – Bahamas Middle Temple Week 2026",
    text := renderBody (statusChangeLines r newStatus oldStatus adminNotes) }

/-- The named form fields read from `req.body` by the intake route.  Each
field is `Option String`: `none` models an absent property. -/
structure IntakeBody where
  middle_temple_member : Option String
  bmts_member_interest : Option String
  title : Option String
  first_name : Option String
  last_name : Option String
  company : Option String
  po_box : Option String
  city : Option String
  telephone : Option String
  email : Option String
  practice_track : Option String
  payment_method : Option String
  consent : Option String
deriving DecidableEq, Repr

/-- Keys of the `required` array in the intake route. -/
inductive FieldKey where
  | middle_temple_member
  | bmts_member_interest
  | title
  | first_name
  | last_name
  | telephone
  | email
  | practice_track
  | payment_method
  | consent
deriving DecidableEq, Repr

/-- `body[k]` dynamic property access for the required keys. -/
def getField (b : IntakeBody) : FieldKey → Option String
  | .middle_temple_member => b.middle_temple_member
  | .bmts_member_interest => b.bmts_member_interest
  | .title => b.title
  | .first_name => b.first_name
  | .last_name => b.last_name
  | .telephone => b.telephone
  | .email => b.email
  | .practice_track => b.practice_track
  | .payment_method => b.payment_method
  | .consent => b.consent

/-- The `required` key list of the intake route, in source order. -/
def requiredFields : List FieldKey :=
  [.middle_temple_member, .bmts_member_interest, .title, .first_name,
   .last_name, .telephone, .email, .practice_track, .payment_method, .consent]

/-- Negation of the per-key rejection test of the intake route, i.e. the
key passes when `body[k]` is present, truthy, and non-blank after
trimming.  Mirrors `!body[k] || String(body[k]).trim() === ''`. -/
def fieldPresent (b : IntakeBody) (k : FieldKey) : Bool :=
  match getField b k with
  | none => false
  | some v => !(v == "") && !(jsTrim v == "")

/-- Response of the intake route: either a 400 rejection with its message
or a 200 with the generated registration id. -/
inductive IntakeOutcome where
  | rejected (message : String)
  | created (registration_id : String)
deriving DecidableEq, Repr

/-- The intake pipeline `upload.single(..)` followed by the
`POST /api/register` handler.  Injected inputs that the real server
draws from its environment: `freshId` (the uuid that the multer storage
callback stashes on the request and the handler reuses), `created_at`
(`new Date().toISOString()`), `registrationDate` and `now` (locale
clock strings used inside the two emails), and `env` values.  The multer
`fileFilter` and the 10 MiB size limit run before the handler; their
errors surface as 400 responses and nothing is persisted. -/
def register (transporter : Option Mailer) (store : List Registration)
    (file : Option FileDesc) (body : IntakeBody)
    (freshId created_at registrationDate now : String)
    (ownerEmailEnv adminUrlEnv : Option String) :
    IntakeOutcome × List Registration × List SendRecord :=
  match file with
  | none => (IntakeOutcome.rejected "Payment proof is required.", store, [])
  | some f =>
    if !(isValidFile f.mimetype f.originalname) then
      (IntakeOutcome.rejected
        "Invalid file type. Please upload PDF, JPG, JPEG, or PNG.", store, [])
    else if maxFileSize < f.size then
      (IntakeOutcome.rejected "File too large", store, [])
    else if !(requiredFields.all (fun k => fieldPresent body k)) then
      (IntakeOutcome.rejected "Please complete all required fields.", store, [])
    else
      let row : Registration :=
        { id := freshId
          created_at := created_at
          status := "Pending Verification"
          middle_temple_member := (getField body .middle_temple_member).getD ""
          bmts_member_interest := (getField body .bmts_member_interest).getD ""
          title := (getField body .title).getD ""
          first_name := (getField body .first_name).getD ""
          last_name := (getField body .last_name).getD ""
          company := jsOr body.company ""
          po_box := jsOr body.po_box ""
          city := jsOr body.city ""
          telephone := (getField body .telephone).getD ""
          email := (getField body .email).getD ""
          practice_track := (getField body .practice_track).getD ""
          payment_method := (getField body .payment_method).getD ""
          payment_file_name := if f.originalname == "" then f.filename
            else f.originalname
          payment_file_path := f.path
          admin_notes := "" }
      let confirmation := generateRegistrationConfirmationEmail row registrationDate
      let ownerEmail := jsOr ownerEmailEnv "bahamasmts@bmts-events.com"
      let adminUrl := jsOr adminUrlEnv "https://your-domain.com/admin/"
      let adminMail := generateAdminNotificationEmail row now adminUrl
      let confirmationSend : SendRecord :=
        { email := ⟨row.email, confirmation.subject, confirmation.text⟩,
          outcome := sendEmail transporter row.email confirmation.subject
            confirmation.text }
      let adminSend : SendRecord :=
        { email := ⟨ownerEmail, adminMail.subject, adminMail.text⟩,
          outcome := sendEmail transporter ownerEmail adminMail.subject
            adminMail.text }
      (IntakeOutcome.created freshId, store ++ [row],
       [confirmationSend, adminSend])

/-- Response of the admin status-update route. -/
inductive TransitionResult where
  | invalidStatus
  | notFound
  | ok
deriving DecidableEq, Repr

/-- The JSON message the route answers with for each response: a 400
with "Invalid status", a 404 with "Not found", or a 200 with no message. -/
def transitionResponseMessage : TransitionResult → Option String
  | TransitionResult.invalidStatus => some "Invalid status"
  | TransitionResult.notFound => some "Not found"
  | TransitionResult.ok => none

/-- The status-based template dispatch inside the status-update route. -/
def selectStatusEmail (row : Registration) (status oldStatus notes : String) :
    EmailContent :=
  if status == "Payment Verified" then generatePaymentVerifiedEmail row
  else if status == "Payment Rejected" then generatePaymentRejectedEmail row notes
  else if status == "Awaiting Resubmission" then
    generateAwaitingResubmissionEmail row notes
  else generateStatusChangeNotificationEmail row status oldStatus notes

/-- The `POST /admin/api/registration/:id/status` handler.  `bodyStatus`
and `bodyNotes` are the optional JSON body properties; the route coerces
them with JavaScript truthiness before validating the status against the
allowed list, looking the record up, updating status plus notes, and
dispatching a status-specific email only when the status changed. -/
def transition (transporter : Option Mailer) (store : List Registration)
    (id : String) (bodyStatus bodyNotes : Option String) :
    TransitionResult × List Registration × List SendRecord :=
  let status := jsTruthyString bodyStatus
  let notes := jsTruthyString bodyNotes
  if !(allowedStatuses.contains status) then
    (TransitionResult.invalidStatus, store, [])
  else
    match getById store id with
    | none => (TransitionResult.notFound, store, [])
    | some row =>
      let oldStatus := row.status
      let store2 := updateStatusAndNotes store id status notes
      let sends :=
        if status != oldStatus then
          let e := selectStatusEmail row status oldStatus notes
          [{ email := { toAddr := row.email, subject := e.subject, text := e.text },
             outcome := sendEmail transporter row.email e.subject e.text }]
        else []
      (TransitionResult.ok, store2, sends)

/-- Lexicographic byte order on char lists: the model of the default
BINARY collation SQLite uses for `ORDER BY created_at` on a TEXT column
(the stored `created_at` values are ASCII ISO-8601 strings). -/
def charListLe : List Char → List Char → Bool
  | [], _ => true
  | _ :: _, [] => false
  | a :: as, b :: bs => if a.toNat == b.toNat then charListLe as bs
      else decide (a.toNat < b.toNat)

/-- `ORDER BY created_at DESC` comparison between two rows. -/
def createdDesc (a b : Registration) : Bool :=
  charListLe b.created_at.data a.created_at.data

/-- The column subset selected by `GET /admin/api/registrations`. -/
structure RegistrationSummary where
  id : String
  created_at : String
  status : String
  first_name : String
  last_name : String
  email : String
  telephone : String
  practice_track : String
  payment_method : String
deriving DecidableEq, Repr

/-- Projection of a row onto the selected columns. -/
def summaryOf (r : Registration) : RegistrationSummary :=
  { id := r.id, created_at := r.created_at, status := r.status,
    first_name := r.first_name, last_name := r.last_name, email := r.email,
    telephone := r.telephone, practice_track := r.practice_track,
    payment_method := r.payment_method }

/-- The rows the `GET /admin/api/registrations` query ranges over:
`WHERE status = ?` when the `status` query parameter is truthy, the whole
table otherwise. -/
def listMatching (store : List Registration) (status : Option String) :
    List Registration :=
  match status with
  | some s => if s == "" then store else store.filter (fun r => r.status == s)
  | none => store

/-- `GET /admin/api/registrations`: matching rows, ordered by
`created_at DESC`, projected onto the summary columns. -/
def listByStatus (store : List Registration) (status : Option String) :
    List RegistrationSummary :=
  ((listMatching store status).mergeSort createdDesc).map summaryOf

/-- A complete, valid intake form (the concrete scenario of the spec). -/
def sampleBody : IntakeBody :=
  { middle_temple_member := some "Yes", bmts_member_interest := some "Yes",
    title := some "Mr.", first_name := some "Ann", last_name := some "Lee",
    company := none, po_box := none, city := none,
    telephone := some "555-0100", email := some "ann@example.com",
    practice_track := some "Civil", payment_method := some "Bank Transfer",
    consent := some "on" }

/-- The same form with the required `title` field absent. -/
def sampleBodyNoTitle : IntakeBody := { sampleBody with title := none }

/-- A valid 1 KiB PDF upload. -/
def samplePdf : FileDesc :=
  { mimetype := "application/pdf", originalname := "receipt.pdf",
    size := 1024, filename := "id-1.pdf", path := "/uploads/id-1.pdf" }

/-- An upload whose declared content-type (`application/pdf`) and filename
extension (`.jpg`) do not correspond, though each is individually in the
accepted set. -/
def sampleMismatchFile : FileDesc :=
  { mimetype := "application/pdf", originalname := "receipt.jpg",
    size := 1024, filename := "id-1.jpg", path := "/uploads/id-1.jpg" }

/-- The row the intake of `sampleBody` with `samplePdf` stores. -/
def sampleStoredRow : Registration :=
  { id := "id-1", created_at := "2026-01-05T12:00:00.000Z",
    status := "Pending Verification", middle_temple_member := "Yes",
    bmts_member_interest := "Yes", title := "Mr.", first_name := "Ann",
    last_name := "Lee", company := "", po_box := "", city := "",
    telephone := "555-0100", email := "ann@example.com",
    practice_track := "Civil", payment_method := "Bank Transfer",
    payment_file_name := "receipt.pdf", payment_file_path := "/uploads/id-1.pdf",
    admin_notes := "" }

/-- A stored registration awaiting verification, with an earlier admin note. -/
def sampleRow : Registration :=
  { sampleStoredRow with id := "r1", admin_notes := "first note" }

/-- The lifecycle templates of the claim about template bodies, together
with the inputs (clock string, statuses) that are specific to each. -/
inductive LifecycleTemplate where
  | registrationConfirmation (registrationDate : String)
  | paymentVerified
  | paymentRejected
  | awaitingResubmission
  | statusChange (newStatus oldStatus : String)
deriving DecidableEq, Repr

/-- The line array a lifecycle template generates for registration `r`
with admin note `notes`. -/
def lifecycleLines : LifecycleTemplate → Registration → String → List String
  | .registrationConfirmation d, r, _ => registrationConfirmationLines r d
  | .paymentVerified, r, _ => paymentVerifiedLines r
  | .paymentRejected, r, notes => paymentRejectedLines r notes
  | .awaitingResubmission, r, notes => awaitingResubmissionLines r notes
  | .statusChange ns os, r, notes => statusChangeLines r ns os notes

lemma hasPre_self_append (p rest : List Char) : hasPre p (p ++ rest) = true := by
  induction p with
  | nil => rfl
  | cons c cs ih => simp [hasPre, ih]

/-- A string starting with the literal chunk `a` cannot equal a string `b`
that does not start with `a`. -/
lemma append_head_ne (a x b : String) (h : hasPre a.data b.data = false) :
    a ++ x ≠ b := by
  intro hEq
  have hd : a.data ++ x.data = b.data := by
    rw [← String.data_append, hEq]
  rw [← hd, hasPre_self_append] at h
  cases h

lemma mem_emailBodyLines {l : String} {ls : List String} (h1 : l ∈ ls)
    (h2 : l ≠ "") : l ∈ emailBodyLines ls := by
  refine List.mem_filter.mpr ⟨h1, ?_⟩
  simpa using h2

lemma jsTruthyString_some (n : String) : jsTruthyString (some n) = n := by
  unfold jsTruthyString
  by_cases h : n = "" <;> simp [h]

lemma getById_update (store : List Registration) (id s n : String) :
    getById (updateStatusAndNotes store id s n) id =
      (getById store id).map (fun r => { r with status := s, admin_notes := n }) := by
  induction store with
  | nil => rfl
  | cons r rest ih =>
    unfold getById updateStatusAndNotes at *
    by_cases h : r.id == id
    · simp [List.find?, h]
    · simp only [List.map_cons]
      rw [if_neg (by simpa using h)]
      rw [List.find?_cons_of_neg _ (by simpa using h),
        List.find?_cons_of_neg _ (by simpa using h)]
      exact ih

lemma mem_allowed_contains {s : String} (h : s ∈ allowedStatuses) :
    allowedStatuses.contains s = true :=
  List.elem_eq_true_of_mem h

lemma mem_allowed_ne_empty {s : String} (h : s ∈ allowedStatuses) :
    (s == "") = false := by
  fin_cases h <;> decide

/-- Shape of a transition call that passes both guards: it always
answers `ok`, persists status plus notes, and sends the status-selected
email exactly when the status changed. -/
lemma transition_valid (tr : Option Mailer) (store : List Registration)
    (id s : String) (bodyNotes : Option String) (row : Registration)
    (hs : s ∈ allowedStatuses) (hrow : getById store id = some row) :
    transition tr store id (some s) bodyNotes =
      (TransitionResult.ok,
       updateStatusAndNotes store id s (jsTruthyString bodyNotes),
       if s == row.status then []
       else
         [{ email := ⟨row.email,
              (selectStatusEmail row s row.status (jsTruthyString bodyNotes)).subject,
              (selectStatusEmail row s row.status (jsTruthyString bodyNotes)).text⟩,
            outcome := sendEmail tr row.email
              (selectStatusEmail row s row.status (jsTruthyString bodyNotes)).subject
              (selectStatusEmail row s row.status (jsTruthyString bodyNotes)).text }]) := by
  simp only [transition, jsTruthyString_some, mem_allowed_contains hs, hrow,
    Bool.not_true, Bool.false_eq_true, if_false]
  by_cases hb : s == row.status
  · simp [hb, bne]
  · simp [hb, bne]

lemma charListLe_trans : ∀ x y z : List Char, charListLe x y = true →
    charListLe y z = true → charListLe x z = true := by
  intro x
  induction x with
  | nil => intro y z _ _; rfl
  | cons a as ih =>
    intro y z hxy hyz
    cases y with
    | nil => simp [charListLe] at hxy
    | cons b bs =>
      cases z with
      | nil => simp [charListLe] at hyz
      | cons c cs =>
        simp only [charListLe] at hxy hyz ⊢
        by_cases hab : a.toNat = b.toNat <;> by_cases hbc : b.toNat = c.toNat
        · simp only [hab, hbc, beq_self_eq_true, if_true] at *
          exact ih bs cs hxy hyz
        · rw [if_pos (by simpa using hab)] at hxy
          rw [if_neg (by simpa using hbc)] at hyz
          rw [if_neg (by simp; omega)]
          simp at hyz ⊢
          omega
        · rw [if_neg (by simpa using hab)] at hxy
          rw [if_pos (by simpa using hbc)] at hyz
          rw [if_neg (by simp; omega)]
          simp at hxy ⊢
          omega
        · rw [if_neg (by simpa using hab)] at hxy
          rw [if_neg (by simpa using hbc)] at hyz
          simp at hxy hyz
          rw [if_neg (by simp; omega)]
          simp
          omega

lemma charListLe_total : ∀ x y : List Char,
    (charListLe x y || charListLe y x) = true := by
  intro x
  induction x with
  | nil => intro y; simp [charListLe]
  | cons a as ih =>
    intro y
    cases y with
    | nil => simp [charListLe]
    | cons b bs =>
      simp only [charListLe]
      by_cases hab : a.toNat = b.toNat
      · rw [if_pos (by simpa using hab), if_pos (by simp [hab])]
        exact ih bs
      · rw [if_neg (by simpa using hab), if_neg (by simp; omega)]
        simp
        omega

lemma createdDesc_trans : ∀ a b c : Registration, createdDesc a b = true →
    createdDesc b c = true → createdDesc a c = true := by
  intro a b c h1 h2
  exact charListLe_trans _ _ _ h2 h1

lemma createdDesc_total : ∀ a b : Registration,
    (createdDesc a b || createdDesc b a) = true := by
  intro a b
  have := charListLe_total b.created_at.data a.created_at.data
  simpa [createdDesc, Bool.or_comm] using this

lemma not_mem_allowed_contains {s : String} (h : s ∉ allowedStatuses) :
    allowedStatuses.contains s = false := by
  rw [← Bool.not_eq_true]
  intro hc
  exact h (List.mem_of_elem_eq_true hc)

lemma jsTruthyString_eq_getD (v : Option String) :
    jsTruthyString v = v.getD "" := by
  cases v with
  | none => rfl
  | some n => rw [jsTruthyString_some]; rfl

/-- Claim C1, counterexample: an upload declaring `application/pdf` with a
filename ending in `.jpg` — a content-type/extension mismatch in which
each part is individually accepted — is NOT rejected: `isValidFile`
accepts it and a full intake carrying it succeeds. -/
theorem claim_C1_counterexample :
    isValidFile "application/pdf" "receipt.jpg" = true ∧
    "application/pdf" ∈ ["application/pdf", "image/jpeg", "image/png"] ∧
    jsEndsWith (jsToLower "receipt.jpg") ".jpg" = true ∧
    (register none [] (some sampleMismatchFile) sampleBody "id-1"
      "2026-01-05T12:00:00.000Z" "Monday, January 5, 2026" "1/5/2026"
      none none).1 = IntakeOutcome.created "id-1" := by
  refine ⟨by decide, by decide, by decide, ?_⟩
  decide

/-- Claim C1, amended: the validator checks the declared content-type
and the filename extension independently — any file whose content-type
is in the accepted set and whose lowercased filename ends in an accepted
extension passes, with no correspondence between the two required. -/
theorem claim_C1 (mimetype filename : String)
    (hm : mimetype ∈ ["application/pdf", "image/jpeg", "image/png"])
    (he : jsEndsWith (jsToLower filename) ".pdf" = true ∨
      jsEndsWith (jsToLower filename) ".jpg" = true ∨
      jsEndsWith (jsToLower filename) ".jpeg" = true ∨
      jsEndsWith (jsToLower filename) ".png" = true) :
    isValidFile mimetype filename = true := by
  rcases he with h | h | h | h <;> simp [isValidFile, h] <;> simpa using hm

/-- Witness for C1 at the mismatched pair. -/
theorem claim_C1_witness : isValidFile "application/pdf" "receipt.jpg" = true :=
  claim_C1 "application/pdf" "receipt.jpg" (by decide) (by decide)

/-- Claim C2: on a transition whose guards pass, exactly one notification
is dispatched iff the target status differs from the current one; a
same-status transition persists the supplied notes and dispatches
nothing. -/
theorem claim_C2 (tr : Option Mailer) (store : List Registration)
    (id s notes : String) (row : Registration)
    (hs : s ∈ allowedStatuses) (hrow : getById store id = some row) :
    ((transition tr store id (some s) (some notes)).2.2.length = 1 ↔
      s ≠ row.status) ∧
    (s = row.status →
      (transition tr store id (some s) (some notes)).2.2 = [] ∧
      getById (transition tr store id (some s) (some notes)).2.1 id =
        some { row with status := s, admin_notes := notes }) := by
  rw [transition_valid tr store id s (some notes) row hs hrow]
  constructor
  · by_cases h : s = row.status <;> simp [h]
  · intro h
    constructor
    · simp [h]
    · simp only []
      rw [getById_update, hrow]
      simp [jsTruthyString_some]

/-- Witness for C2: a same-status transition on a concrete store. -/
theorem claim_C2_witness :
    (transition none [sampleRow] "r1" (some "Pending Verification")
      (some "second note")).2.2 = [] ∧
    getById (transition none [sampleRow] "r1" (some "Pending Verification")
      (some "second note")).2.1 "r1" =
      some { sampleRow with status := "Pending Verification", admin_notes := "second note" } :=
  (claim_C2 none [sampleRow] "r1" "Pending Verification" "second note"
    sampleRow (by decide) (by decide)).2 (by decide)

/-- Claim C3: a transition with a status outside the allowed set answers
"Invalid status" and mutates nothing; a transition on an unknown id (with
a valid status) answers "Not found" and mutates nothing. -/
theorem claim_C3 (tr : Option Mailer) (store : List Registration)
    (id : String) (bodyStatus bodyNotes : Option String) :
    (jsTruthyString bodyStatus ∉ allowedStatuses →
      transition tr store id bodyStatus bodyNotes =
        (TransitionResult.invalidStatus, store, []) ∧
      transitionResponseMessage (transition tr store id bodyStatus bodyNotes).1 =
        some "Invalid status") ∧
    (jsTruthyString bodyStatus ∈ allowedStatuses →
      getById store id = none →
      transition tr store id bodyStatus bodyNotes =
        (TransitionResult.notFound, store, []) ∧
      transitionResponseMessage (transition tr store id bodyStatus bodyNotes).1 =
        some "Not found") := by
  constructor
  · intro h
    have he : transition tr store id bodyStatus bodyNotes =
        (TransitionResult.invalidStatus, store, []) := by
      simp only [transition, not_mem_allowed_contains h, Bool.not_false,
        if_pos rfl]
      simp
    exact ⟨he, by rw [he]; rfl⟩
  · intro h1 h2
    have he : transition tr store id bodyStatus bodyNotes =
        (TransitionResult.notFound, store, []) := by
      simp only [transition, mem_allowed_contains h1, h2, Bool.not_true,
        Bool.false_eq_true, if_false]
    exact ⟨he, by rw [he]; rfl⟩

/-- Witness for C3: a bogus status and a missing id on a concrete store. -/
theorem claim_C3_witness :
    transition none [sampleRow] "r1" (some "Bogus") none =
      (TransitionResult.invalidStatus, [sampleRow], []) ∧
    transition none [sampleRow] "r2" (some "Payment Verified") none =
      (TransitionResult.notFound, [sampleRow], []) :=
  ⟨((claim_C3 none [sampleRow] "r1" (some "Bogus") none).1 (by decide)).1,
   ((claim_C3 none [sampleRow] "r2" (some "Payment Verified") none).2
     (by decide) (by decide)).1⟩

/-- Claim C8: a transition that passes both guards overwrites the stored
`admin_notes` with the supplied notes — defaulting to the empty string
when the request carries none — regardless of the previously stored
notes, and for no-op transitions as well as status changes. -/
theorem claim_C8 (tr : Option Mailer) (store : List Registration)
    (id s : String) (bodyNotes : Option String) (row : Registration)
    (hs : s ∈ allowedStatuses) (hrow : getById store id = some row) :
    getById (transition tr store id (some s) bodyNotes).2.1 id =
      some { row with status := s, admin_notes := bodyNotes.getD "" } := by
  rw [transition_valid tr store id s bodyNotes row hs hrow]
  simp only []
  rw [getById_update, hrow]
  simp [jsTruthyString_eq_getD]

/-- Witness for C8: a notes-free transition erases the stored note. -/
theorem claim_C8_witness :
    getById (transition none [sampleRow] "r1" (some "Payment Verified")
      none).2.1 "r1" =
      some { sampleRow with status := "Payment Verified", admin_notes := "" } :=
  claim_C8 none [sampleRow] "r1" "Payment Verified" none sampleRow
    (by decide) (by decide)

/-- Claim C4: every row an intake call adds to the store has status
"Pending Verification", whatever the caller supplied, and a successful
intake appends exactly one such row. -/
theorem claim_C4 (tr : Option Mailer) (store : List Registration)
    (file : Option FileDesc) (body : IntakeBody)
    (freshId created_at rd now : String) (oe au : Option String) :
    (∀ r ∈ (register tr store file body freshId created_at rd now oe au).2.1,
      r ∈ store ∨ r.status = "Pending Verification") ∧
    (∀ rid, (register tr store file body freshId created_at rd now oe au).1 =
        IntakeOutcome.created rid →
      ∃ row, (register tr store file body freshId created_at rd now oe au).2.1 =
        store ++ [row] ∧ row.status = "Pending Verification") := by
  rcases file with _ | f
  · constructor
    · intro r hr
      simp only [register] at hr
      exact Or.inl hr
    · intro rid hrid
      simp [register] at hrid
  · simp only [register]
    split_ifs <;>
      first
        | exact ⟨fun r hr => Or.inl hr, fun rid hrid => by simp at hrid⟩
        | (refine ⟨?_, ?_⟩
           · intro r hr
             simp only [List.mem_append, List.mem_singleton] at hr
             rcases hr with hr | hr
             · exact Or.inl hr
             · exact Or.inr (by rw [hr])
           · intro rid _
             exact ⟨_, rfl, rfl⟩)

/-- Witness for C4: the concrete sample intake creates exactly one
pending row. -/
theorem claim_C4_witness :
    (sampleStoredRow ∈ ([] : List Registration) ∨
      sampleStoredRow.status = "Pending Verification") ∧
    (∃ row, (register none [] (some samplePdf) sampleBody "id-1"
        "2026-01-05T12:00:00.000Z" "Monday, January 5, 2026" "1/5/2026"
        none none).2.1 = [] ++ [row] ∧ row.status = "Pending Verification") :=
  ⟨(claim_C4 none [] (some samplePdf) sampleBody "id-1"
      "2026-01-05T12:00:00.000Z" "Monday, January 5, 2026" "1/5/2026"
      none none).1 sampleStoredRow (by decide),
   (claim_C4 none [] (some samplePdf) sampleBody "id-1"
      "2026-01-05T12:00:00.000Z" "Monday, January 5, 2026" "1/5/2026"
      none none).2 "id-1" (by decide)⟩

/-- Claim C6: neither the intake nor the transition workflow depends on
the mail transporter for its response, its persisted store, or the
messages it hands to `sendEmail`: an absent transporter or failing
deliveries change only the recorded send outcomes, never the committed
mutation or the success response. -/
theorem claim_C6 (t1 t2 : Option Mailer) (store : List Registration)
    (file : Option FileDesc) (body : IntakeBody)
    (freshId created_at rd now : String) (oe au : Option String)
    (id : String) (bs bn : Option String) :
    ((register t1 store file body freshId created_at rd now oe au).1 =
       (register t2 store file body freshId created_at rd now oe au).1 ∧
     (register t1 store file body freshId created_at rd now oe au).2.1 =
       (register t2 store file body freshId created_at rd now oe au).2.1 ∧
     (register t1 store file body freshId created_at rd now oe au).2.2.map
        (fun sr => sr.email) =
       (register t2 store file body freshId created_at rd now oe au).2.2.map
        (fun sr => sr.email)) ∧
    ((transition t1 store id bs bn).1 = (transition t2 store id bs bn).1 ∧
     (transition t1 store id bs bn).2.1 = (transition t2 store id bs bn).2.1 ∧
     (transition t1 store id bs bn).2.2.map (fun sr => sr.email) =
       (transition t2 store id bs bn).2.2.map (fun sr => sr.email)) := by
  constructor
  · rcases file with _ | f
    · exact ⟨rfl, rfl, rfl⟩
    · simp only [register]
      split_ifs <;> exact ⟨rfl, rfl, rfl⟩
  · simp only [transition]
    split_ifs with h1
    · refine ⟨?_, ?_, ?_⟩ <;> trivial
    · rcases hg : getById store id with _ | row <;> simp only [hg]
      · refine ⟨?_, ?_, ?_⟩ <;> trivial
      · split_ifs with h2 <;> refine ⟨?_, ?_, ?_⟩ <;> trivial

/-- Claim C7, counterexample: an intake request missing a required field
(`title`) AND missing the payment file is rejected with
"Payment proof is required.", not with the message the claim demands
for every such request. -/
theorem claim_C7_counterexample :
    getField sampleBodyNoTitle FieldKey.title = none ∧
    register none [] none sampleBodyNoTitle "id-1" "t" "d" "n" none none =
      (IntakeOutcome.rejected "Payment proof is required.", [], []) ∧
    "Payment proof is required." ≠ "Please complete all required fields." := by
  refine ⟨by decide, by decide, by decide⟩

/-- Claim C7, amended: an intake with a missing-or-blank required field
never creates a row, mutates nothing, sends nothing, and — whenever the
request carries an accepted, size-conforming payment file — is rejected
with exactly "Please complete all required fields.". -/
theorem claim_C7 (tr : Option Mailer) (store : List Registration)
    (file : Option FileDesc) (body : IntakeBody)
    (freshId created_at rd now : String) (oe au : Option String)
    (hmiss : ∃ k ∈ requiredFields, fieldPresent body k = false) :
    (∀ rid, (register tr store file body freshId created_at rd now oe au).1 ≠
      IntakeOutcome.created rid) ∧
    (register tr store file body freshId created_at rd now oe au).2.1 = store ∧
    (register tr store file body freshId created_at rd now oe au).2.2 = [] ∧
    (∀ f, file = some f → isValidFile f.mimetype f.originalname = true →
      f.size ≤ maxFileSize →
      (register tr store file body freshId created_at rd now oe au).1 =
        IntakeOutcome.rejected "Please complete all required fields.") := by
  have hall : (requiredFields.all fun k => fieldPresent body k) = false := by
    rw [← Bool.not_eq_true, List.all_eq_true]
    push_neg
    obtain ⟨k, hk, hp⟩ := hmiss
    exact ⟨k, hk, by simp [hp]⟩
  rcases file with _ | f
  · refine ⟨?_, rfl, rfl, ?_⟩
    · intro rid h
      simp [register] at h
    · intro f hf
      simp at hf
  · simp only [register]
    split_ifs with h1 h2 h3
    · refine ⟨?_, rfl, rfl, ?_⟩
      · intro rid h
        simp at h
      · intro f2 hf2 hvalid hsize
        injection hf2 with hf2
        subst hf2
        simp [hvalid] at h1
    · refine ⟨?_, rfl, rfl, ?_⟩
      · intro rid h
        simp at h
      · intro f2 hf2 hvalid hsize
        injection hf2 with hf2
        subst hf2
        omega
    · refine ⟨?_, rfl, rfl, ?_⟩
      · intro rid h
        simp at h
      · intro f2 _ _ _
        rfl
    all_goals simp [hall] at h3

/-- Witness for C7: a complete file but a missing `title`. -/
theorem claim_C7_witness :
    (register none [] (some samplePdf) sampleBodyNoTitle "id-1" "t" "d" "n"
      none none).1 =
      IntakeOutcome.rejected "Please complete all required fields." ∧
    (register none [] (some samplePdf) sampleBodyNoTitle "id-1" "t" "d" "n"
      none none).2.1 = [] :=
  have h := claim_C7 none [] (some samplePdf) sampleBodyNoTitle "id-1" "t" "d"
    "n" none none (by decide)
  ⟨h.2.2.2 samplePdf rfl (by decide) (by decide), h.2.1⟩

/-- Claim C10: for every store and optional filter, the list operation
returns exactly the matching rows (projected to summaries), ordered
newest-created first, and an empty match yields the empty sequence
rather than an error. -/
theorem claim_C10 (store : List Registration) (q : Option String) :
    List.Pairwise
      (fun a b : RegistrationSummary =>
        charListLe b.created_at.data a.created_at.data = true)
      (listByStatus store q) ∧
    (listByStatus store q).Perm ((listMatching store q).map summaryOf) ∧
    (listMatching store q = [] → listByStatus store q = []) := by
  refine ⟨?_, ?_, ?_⟩
  · have hs := @List.sorted_mergeSort Registration createdDesc createdDesc_trans
      createdDesc_total (listMatching store q)
    unfold listByStatus
    exact List.Pairwise.map summaryOf (fun a b h => h) hs
  · unfold listByStatus
    exact List.Perm.map summaryOf (List.mergeSort_perm _ _)
  · intro h
    unfold listByStatus
    rw [h, List.mergeSort_nil]
    rfl

/-- Witness for C10: filtering a store holding one pending registration
by "Payment Verified" returns the empty sequence. -/
theorem claim_C10_witness :
    listByStatus [sampleRow] (some "Payment Verified") = [] :=
  (claim_C10 [sampleRow] (some "Payment Verified")).2.2 (by decide)

/-- Claim C5: on a successful status-changing transition the dispatched
message is selected purely by the new status — confirmation template for
"Payment Verified" (subject contains "Confirmed", body carries the
registration id), rejection template with the verbatim admin note for
"Payment Rejected", resubmission template with the note for "Awaiting
Resubmission", and the generic template naming old status, new status and
note for every other allowed status. -/
theorem claim_C5 (tr : Option Mailer) (store : List Registration)
    (id s notes : String) (row : Registration)
    (hs : s ∈ allowedStatuses) (hrow : getById store id = some row)
    (hch : s ≠ row.status) :
    (transition tr store id (some s) (some notes)).2.2.map (fun sr => sr.email) =
      [⟨row.email, (selectStatusEmail row s row.status notes).subject,
        (selectStatusEmail row s row.status notes).text⟩] ∧
    (s = "Payment Verified" →
      selectStatusEmail row s row.status notes = generatePaymentVerifiedEmail row ∧
      containsStr (generatePaymentVerifiedEmail row).subject "Confirmed" = true ∧
      ("Registration ID: " ++ row.id) ∈ emailBodyLines (paymentVerifiedLines row)) ∧
    (s = "Payment Rejected" →
      selectStatusEmail row s row.status notes =
        generatePaymentRejectedEmail row notes ∧
      (notes ≠ "" → notes ∈ emailBodyLines (paymentRejectedLines row notes))) ∧
    (s = "Awaiting Resubmission" →
      selectStatusEmail row s row.status notes =
        generateAwaitingResubmissionEmail row notes ∧
      (notes ≠ "" → notes ∈ emailBodyLines (awaitingResubmissionLines row notes))) ∧
    (s ≠ "Payment Verified" → s ≠ "Payment Rejected" →
      s ≠ "Awaiting Resubmission" →
      selectStatusEmail row s row.status notes =
        generateStatusChangeNotificationEmail row s row.status notes ∧
      ("Previous Status: " ++ row.status) ∈
        emailBodyLines (statusChangeLines row s row.status notes) ∧
      ("Current Status: " ++ s) ∈
        emailBodyLines (statusChangeLines row s row.status notes) ∧
      (notes ≠ "" → notes ∈
        emailBodyLines (statusChangeLines row s row.status notes))) := by
  have hb : (s == row.status) = false := by simpa using hch
  refine ⟨?_, ?_, ?_, ?_, ?_⟩
  · rw [transition_valid tr store id s (some notes) row hs hrow,
      jsTruthyString_some]
    simp [hb]
  · intro h
    subst h
    refine ⟨by simp [selectStatusEmail], ?_, ?_⟩
    · rw [show (generatePaymentVerifiedEmail row).subject =
        "Registration Confirmed – Bahamas Middle Temple Week 2026" from rfl]
      decide
    · exact mem_emailBodyLines (by simp [paymentVerifiedLines])
        (append_head_ne _ _ _ (by decide))
  · intro h
    subst h
    refine ⟨by simp [selectStatusEmail], ?_⟩
    intro hn
    have hn2 : (notes == "") = false := by simpa using hn
    exact mem_emailBodyLines (by simp [paymentRejectedLines, hn2]) hn
  · intro h
    subst h
    refine ⟨by simp [selectStatusEmail], ?_⟩
    intro hn
    have hn2 : (notes == "") = false := by simpa using hn
    exact mem_emailBodyLines (by simp [awaitingResubmissionLines, hn2]) hn
  · intro h1 h2 h3
    have hb1 : (s == "Payment Verified") = false := by simpa using h1
    have hb2 : (s == "Payment Rejected") = false := by simpa using h2
    have hb3 : (s == "Awaiting Resubmission") = false := by simpa using h3
    refine ⟨by simp [selectStatusEmail, hb1, hb2, hb3], ?_, ?_, ?_⟩
    · exact mem_emailBodyLines (by simp [statusChangeLines])
        (append_head_ne _ _ _ (by decide))
    · exact mem_emailBodyLines (by simp [statusChangeLines])
        (append_head_ne _ _ _ (by decide))
    · intro hn
      have hn2 : (notes == "") = false := by simpa using hn
      exact mem_emailBodyLines (by simp [statusChangeLines, hn2]) hn

/-- Witness for C5: verifying the sample pending registration sends the
confirmation template. -/
theorem claim_C5_witness :
    (transition none [sampleRow] "r1" (some "Payment Verified")
      (some "ok")).2.2.map (fun sr => sr.email) =
      [⟨sampleRow.email,
        (selectStatusEmail sampleRow "Payment Verified" sampleRow.status "ok").subject,
        (selectStatusEmail sampleRow "Payment Verified" sampleRow.status "ok").text⟩] ∧
    containsStr (generatePaymentVerifiedEmail sampleRow).subject "Confirmed" = true :=
  have h := claim_C5 none [sampleRow] "r1" "Payment Verified" "ok" sampleRow
    (by decide) (by decide) (by decide)
  ⟨h.1, (h.2.1 rfl).2.1⟩

/-- Claim C9: every lifecycle template body carries the registration id
verbatim (as a "Registration ID: ..." line) — unconditionally, for every
snapshot — and when the optional company field is empty no dangling
"Firm/Company: " or "Company: " label line appears.  The label conjunct
alone carries two side conditions on `notes`, ruling out only an admin
note that itself consists of exactly such a dangling label, since the
note is reproduced verbatim as a body line. -/
theorem claim_C9 (t : LifecycleTemplate) (r : Registration) (notes : String) :
    ("Registration ID: " ++ r.id) ∈ emailBodyLines (lifecycleLines t r notes) ∧
    (r.company = "" → notes ≠ "Firm/Company: " → notes ≠ "Company: " →
      ∀ l ∈ emailBodyLines (lifecycleLines t r notes),
        l ≠ "Firm/Company: " ∧ l ≠ "Company: ") := by
  cases t with
  | registrationConfirmation d =>
    constructor
    · exact mem_emailBodyLines
        (by simp [lifecycleLines, registrationConfirmationLines])
        (append_head_ne _ _ _ (by decide))
    · intro hc h1 h2
      suffices hall : ∀ l ∈ registrationConfirmationLines r d,
          l ≠ "Firm/Company: " ∧ l ≠ "Company: " by
        intro l hl
        exact hall l (List.mem_filter.mp hl).1
      simp only [registrationConfirmationLines, hc, List.forall_mem_cons,
        List.forall_mem_nil, and_true]
      repeat' apply And.intro
      all_goals first
        | decide
        | ((try simp only [String.append_assoc]);
           exact append_head_ne _ _ _ (by decide))
        | (split <;> first | decide | exact h1 | exact h2)
  | paymentVerified =>
    constructor
    · exact mem_emailBodyLines (by simp [lifecycleLines, paymentVerifiedLines])
        (append_head_ne _ _ _ (by decide))
    · intro hc h1 h2
      suffices hall : ∀ l ∈ paymentVerifiedLines r,
          l ≠ "Firm/Company: " ∧ l ≠ "Company: " by
        intro l hl
        exact hall l (List.mem_filter.mp hl).1
      simp only [paymentVerifiedLines, hc, List.forall_mem_cons,
        List.forall_mem_nil, and_true]
      repeat' apply And.intro
      all_goals first
        | decide
        | ((try simp only [String.append_assoc]);
           exact append_head_ne _ _ _ (by decide))
        | (split <;> first | decide | exact h1 | exact h2)
  | paymentRejected =>
    constructor
    · exact mem_emailBodyLines (by simp [lifecycleLines, paymentRejectedLines])
        (append_head_ne _ _ _ (by decide))
    · intro hc h1 h2
      suffices hall : ∀ l ∈ paymentRejectedLines r notes,
          l ≠ "Firm/Company: " ∧ l ≠ "Company: " by
        intro l hl
        exact hall l (List.mem_filter.mp hl).1
      simp only [paymentRejectedLines, List.forall_mem_cons,
        List.forall_mem_nil, and_true]
      repeat' apply And.intro
      all_goals first
        | decide
        | ((try simp only [String.append_assoc]);
           exact append_head_ne _ _ _ (by decide))
        | (split <;> first | decide | exact h1 | exact h2)
  | awaitingResubmission =>
    constructor
    · exact mem_emailBodyLines
        (by simp [lifecycleLines, awaitingResubmissionLines])
        (append_head_ne _ _ _ (by decide))
    · intro hc h1 h2
      suffices hall : ∀ l ∈ awaitingResubmissionLines r notes,
          l ≠ "Firm/Company: " ∧ l ≠ "Company: " by
        intro l hl
        exact hall l (List.mem_filter.mp hl).1
      simp only [awaitingResubmissionLines, List.forall_mem_cons,
        List.forall_mem_nil, and_true]
      repeat' apply And.intro
      all_goals first
        | decide
        | ((try simp only [String.append_assoc]);
           exact append_head_ne _ _ _ (by decide))
        | (split <;> first | decide | exact h1 | exact h2)
  | statusChange ns os =>
    constructor
    · exact mem_emailBodyLines (by simp [lifecycleLines, statusChangeLines])
        (append_head_ne _ _ _ (by decide))
    · intro hc h1 h2
      suffices hall : ∀ l ∈ statusChangeLines r ns os notes,
          l ≠ "Firm/Company: " ∧ l ≠ "Company: " by
        intro l hl
        exact hall l (List.mem_filter.mp hl).1
      simp only [statusChangeLines, hc, List.forall_mem_cons,
        List.forall_mem_nil, and_true]
      repeat' apply And.intro
      all_goals first
        | decide
        | ((try simp only [String.append_assoc]);
           exact append_head_ne _ _ _ (by decide))
        | (split <;> first | decide | exact h1 | exact h2)

/-- Witness for C9: the payment-verified template on the sample
registration (whose company field is empty) with an empty admin note. -/
theorem claim_C9_witness :
    ("Registration ID: " ++ sampleRow.id) ∈
      emailBodyLines (lifecycleLines LifecycleTemplate.paymentVerified
        sampleRow "") ∧
    ∀ l ∈ emailBodyLines (lifecycleLines LifecycleTemplate.paymentVerified
        sampleRow ""),
      l ≠ "Firm/Company: " ∧ l ≠ "Company: " :=
  have h := claim_C9 LifecycleTemplate.paymentVerified sampleRow ""
  ⟨h.1, h.2 (by decide) (by decide) (by decide)⟩
